import Mathlib

/-!
Shallow embedding of the terabox.js client library (src/lib/index.js).

The JavaScript source is sequential request/response glue: each operation
builds a request, sends it, inspects the JSON "envelope" (an `errno` status
code plus optional `errmsg`), and shapes the payload.  We embed the pure
response-handling logic of each operation: network responses become explicit
input values, JS truthiness and `||` defaulting are modelled by explicit
functions, and thrown errors become `Except.error`.
-/

set_option maxRecDepth 10000

namespace TeraBoxJs

/-- JavaScript primitive values, as far as the constructor inspects them
(`typeof` checks and truthiness). -/
inductive JsVal where
  | str (s : String)
  | num (n : Int)
  | boolean (b : Bool)
  | undef
  | nullv
deriving DecidableEq, Repr

/-- Truthiness of a JS value: `""`, `0`, `false`, `undefined`, `null` are
falsy, everything else truthy. -/
def JsVal.truthy : JsVal → Bool
  | .str s => !s.isEmpty
  | .num n => n != 0
  | .boolean b => b
  | .undef => false
  | .nullv => false

/-- JS `a || d` for an optional string field `a` (absent = `undefined`):
falsy (`undefined` or `""`) falls through to the default. -/
def jsOrStr (a : Option String) (d : String) : String :=
  match a with
  | some s => if s.isEmpty then d else s
  | none => d

/-- JS `a || b` for optional numeric fields (absent = `undefined`,
`some 0` is falsy). -/
def jsOrNum (a b : Option Int) : Option Int :=
  match a with
  | some v => if v = 0 then b else some v
  | none => b

/-- JS template interpolation of a possibly-undefined string:
`undefined` renders as the text "undefined". -/
def jsInterp (o : Option String) : String :=
  match o with
  | some s => s
  | none => "undefined"

/-- Truthiness of an optional string (`!data.md5` style checks):
absent or empty is falsy. -/
def strTruthy (o : Option String) : Bool :=
  match o with
  | some s => !s.isEmpty
  | none => false

/-! ### Node `path` module (posix), used via `path.dirname` / `path.basename` -/

/-- Backward scan of Node posix `dirname`: from index `i` down to 1, find the
last slash that follows a non-slash character (`matchedSlash` starts true). -/
def dirnameLoop (cs : List Char) : Nat → Bool → Option Nat
  | 0, _ => none
  | i + 1, matchedSlash =>
    if cs.getD (i + 1) ' ' = '/' then
      if !matchedSlash then some (i + 1)
      else dirnameLoop cs i matchedSlash
    else dirnameLoop cs i false

/-- Node `path.posix.dirname`. -/
def posixDirname (p : String) : String :=
  let cs := p.data
  if cs.length = 0 then "."
  else
    let hasRoot := cs.getD 0 ' ' = '/'
    match dirnameLoop cs (cs.length - 1) true with
    | none => if hasRoot then "/" else "."
    | some e => if hasRoot ∧ e = 1 then "//" else ⟨cs.take e⟩

/-- Backward scan of Node posix `basename`: returns `(start, end)` where
`end = none` models JS `end === -1`. -/
def basenameLoop (cs : List Char) : Nat → Bool → Option Nat → Nat × Option Nat
  | 0, matchedSlash, e =>
    if cs.getD 0 ' ' = '/' then
      if !matchedSlash then (1, e) else (0, e)
    else
      match e with
      | none => (0, some 1)
      | some _ => (0, e)
  | i + 1, matchedSlash, e =>
    if cs.getD (i + 1) ' ' = '/' then
      if !matchedSlash then (i + 2, e)
      else basenameLoop cs i matchedSlash e
    else
      match e with
      | none => basenameLoop cs i false (some (i + 2))
      | some _ => basenameLoop cs i matchedSlash e

/-- Node `path.posix.basename` (no extension argument). -/
def posixBasename (p : String) : String :=
  let cs := p.data
  if cs.length = 0 then ""
  else
    match basenameLoop cs (cs.length - 1) true none with
    | (_, none) => ""
    | (s, some e) => ⟨(cs.take e).drop s⟩

/-! ### Constructor (src/lib/index.js lines 23-39) -/

/-- Credential record as passed by the caller; every field may be absent.
`ndus` is kept as a raw JS value because the source checks its type. -/
structure CredInput where
  ndus : JsVal
  lang : Option String
  appId : Option String
  browserId : Option String
  host : Option String
  blockId : Option String
  userAgent : Option String
  jsToken : Option String
deriving Repr

/-- Stored credential bundle (the private `#credentials` object). -/
structure Credentials where
  ndus : String
  lang : String
  appId : String
  browserId : Option String
  host : String
  blockId : String
  cookies : String
  userAgent : String
  jsToken : String
deriving Repr, DecidableEq

def defaultBlockId : String := "5910a591dd8fc18c32a8f3df4fdc1761"

def defaultUserAgent : String :=
  "Mozilla/5.0 (Windows NT 10.0; Win64; x64) AppleWebKit/537.36 (KHTML, like Gecko) Chrome/137.0.0.0 Safari/537.36\""

def defaultJsToken : String :=
  "0C911FEECAF128F69DC7400B26711AC301F4B35A0C14C794D9C3E9DB91F8935326E23BAE805D10167B33F36BB255375DE0B23AFCC96C61D1092BB647E7901C2C"

/-- TeraBox constructor: throws unless `credentials` is truthy, `credentials.ndus`
is truthy, and `typeof credentials.ndus === 'string'`; otherwise builds the
bundle, applying `||` defaults (note: `browserId` has no default and the
cookie header interpolates the raw, pre-default `browserId` and `lang`). -/
def teraBoxConstructor : Option CredInput → Except String Credentials
  | none => .error "TypeError [ERR_INVALID_ARG_TYPE]: The credentials.ndus property must be of type string."
  | some c =>
    if !c.ndus.truthy then
      .error "TypeError [ERR_INVALID_ARG_TYPE]: The credentials.ndus property must be of type string."
    else
      match c.ndus with
      | .str s =>
        .ok {
          ndus := s
          lang := jsOrStr c.lang "en"
          appId := jsOrStr c.appId "250528"
          browserId := c.browserId
          host := jsOrStr c.host "https://terabox.com"
          blockId := jsOrStr c.blockId defaultBlockId
          cookies := "browserid=" ++ jsInterp c.browserId ++ "; lang=" ++ jsInterp c.lang ++ "; ndus=" ++ s
          userAgent := jsOrStr c.userAgent defaultUserAgent
          jsToken := jsOrStr c.jsToken defaultJsToken }
      | _ =>
        .error "TypeError [ERR_INVALID_ARG_TYPE]: The credentials.ndus property must be of type string."

/-! ### Error envelope -/

/-- Error text thrown on a non-zero envelope code:
`[ERR_API] ${errno} ${errmsg || ''}`. -/
def apiErr (errno : Int) (errmsg : Option String) : String :=
  "[ERR_API] " ++ toString errno ++ " " ++ (match errmsg with | some m => if m.isEmpty then "" else m | none => "")

/-! ### quota (src/lib/index.js lines 51-65) -/

structure QuotaResp where
  errno : Int
  errmsg : Option String
  used : Int
  total : Int
deriving Repr

structure QuotaResult where
  used : Int
  total : Int
  free : Int
deriving Repr, DecidableEq

/-- Response handling of `quota()`: on code zero return
`{used, total, free: total - used}`, otherwise throw the API error. -/
def quotaHandle (r : QuotaResp) : Except String QuotaResult :=
  if r.errno = 0 then
    .ok { used := r.used, total := r.total, free := r.total - r.used }
  else .error (apiErr r.errno r.errmsg)

/-! ### stream (src/lib/index.js lines 271-287) -/

/-- Outcome of `JSON.parse` on the text response: either a syntax error or a
parsed envelope with its `errno` and optional `errmsg`. -/
inductive ParseResult where
  | fail
  | ok (errno : Int) (errmsg : Option String)
deriving Repr, DecidableEq

/-- Body of the `try` block in `stream`: parse, then
`if (json.errno !== 0) throw new Error(...) else return data`.
A `JSON.parse` failure is a thrown syntax error. -/
def streamTryBody (data : String) (parse : ParseResult) : Except String String :=
  match parse with
  | .fail => .error "SyntaxError"
  | .ok errno errmsg => if errno ≠ 0 then .error (apiErr errno errmsg) else .ok data

/-- JS `data.startsWith('\x7b')`: whether the first character is an opening
brace. -/
def startsWithBrace (s : String) : Bool :=
  match s.data with
  | c :: _ => c = '\x7b'
  | [] => false

/-- Text-response handling of `stream`: when the text starts with a brace the
`try` block runs, and ANY exception it throws — including the deliberate
`[ERR_API]` throw for a non-zero envelope — is caught by
`catch { return data }`, which returns the raw text. -/
def streamHandle (data : String) (parse : ParseResult) : Except String String :=
  if startsWithBrace data then
    match streamTryBody data parse with
    | .ok v => .ok v
    | .error _ => .ok data
  else .ok data

/-! ### upload (src/lib/index.js lines 102-142) -/

inductive UploadStep where
  | precreate
  | transfer
  | finalize
deriving Repr, DecidableEq

structure PrecreateResp where
  errno : Int
  errmsg : Option String
  uploadid : String
deriving Repr

structure SuperfileResp where
  md5 : Option String
deriving Repr

/-- Upstream record a Directory Entry is built from. -/
structure DirentData where
  fs_id : Nat
  size : Option Int
  server_filename : String
  path : String
  server_atime : Option Int
  atime : Option Int
  server_ctime : Option Int
  ctime : Option Int
  server_mtime : Option Int
  mtime : Option Int
  isdir : Option Int
deriving Repr

structure CreateResp where
  errno : Int
  errmsg : Option String
  data : DirentData
deriving Repr

/-! ### TeraBoxDirent (src/lib/index.js lines 351-418) -/

structure TBDirent where
  id : Nat
  size : Int
  name : String
  path : String
  parentPath : String
  atimeMs : Option Int
  ctimeMs : Option Int
  mtimeMs : Option Int
  birthtimeMs : Option Int
  isDirectoryFlag : Bool
deriving Repr, DecidableEq

/-- TeraBoxDirent constructor.  Millisecond fields are `Option Int`, `none`
standing for the NaN produced when both upstream aliases are absent;
`data.size || 0` defaults falsy sizes to 0; `!!data.isdir` coerces to Bool. -/
def mkDirent (d : DirentData) : TBDirent :=
  { id := d.fs_id
    size := match d.size with | some v => if v = 0 then 0 else v | none => 0
    name := d.server_filename
    path := d.path
    parentPath := posixDirname d.path
    atimeMs := (jsOrNum d.server_atime d.atime).map (· * 1000)
    ctimeMs := (jsOrNum d.server_ctime d.ctime).map (· * 1000)
    mtimeMs := (jsOrNum d.server_mtime d.mtime).map (· * 1000)
    birthtimeMs := (jsOrNum d.server_ctime d.ctime).map (· * 1000)
    isDirectoryFlag := match d.isdir with | some v => v ≠ 0 | none => false }

def TBDirent.isFile (d : TBDirent) : Bool := !d.isDirectoryFlag

def TBDirent.isDirectory (d : TBDirent) : Bool := d.isDirectoryFlag

/-- Getter `ctime` returns `new Date(this.ctimeMs)`; we model the Date by the
instant it denotes, i.e. the millisecond value itself (`none` = Invalid Date). -/
def TBDirent.ctimeDate (d : TBDirent) : Option Int := d.ctimeMs

/-- Getter `birthtime` returns `new Date(this.birthtimeMs)`. -/
def TBDirent.birthtimeDate (d : TBDirent) : Option Int := d.birthtimeMs

/-- Environment for one run of `upload`: the three responses the three fetches
would return. -/
structure UploadEnv where
  precreateResp : PrecreateResp
  superfileResp : SuperfileResp
  createResp : CreateResp
deriving Repr

/-- Control flow of `upload` after the argument prelude, recording which of
the three network steps are invoked and in what order: precreate, then
(`errno === 0` required) transfer, then (`md5` truthy required) finalize. -/
def uploadRun (env : UploadEnv) : List UploadStep × Except String TBDirent :=
  if env.precreateResp.errno ≠ 0 then
    ([.precreate], .error (apiErr env.precreateResp.errno env.precreateResp.errmsg))
  else if !strTruthy env.superfileResp.md5 then
    ([.precreate, .transfer], .error "[ERR_API] Unable to upload file")
  else if env.createResp.errno = 0 then
    ([.precreate, .transfer, .finalize], .ok (mkDirent env.createResp.data))
  else
    ([.precreate, .transfer, .finalize], .error (apiErr env.createResp.errno env.createResp.errmsg))

/-! ### move (src/lib/index.js lines 199-216) -/

/-- Per-entry record sent in the `filelist` body of `move`. -/
structure MoveRecord where
  path : String
  dest : String
  newname : String
deriving Repr, DecidableEq

/-- Encoding of one mapping entry of `move`:
`dest` is `path.dirname(target) === '/' ? '' : path.dirname(target)` and
`newname` is `path.basename(target)`. -/
def moveEntry (sourcePath targetPath : String) : MoveRecord :=
  { path := sourcePath
    dest := if posixDirname targetPath = "/" then "" else posixDirname targetPath
    newname := posixBasename targetPath }

/-! ### download (src/lib/index.js lines 160-183) -/

/-- Decimal digit character for a digit value. -/
def digitChar (d : Nat) : Char := Char.ofNat (48 + d)

/-- Decimal value of a digit character. -/
def charDigit (c : Char) : Nat := c.toNat - 48

/-- Decimal string rendering of a nonnegative integer, as JS `String(n)`
produces for an integer number. -/
def renderNat (n : Nat) : String :=
  if n = 0 then "0" else ⟨(Nat.digits 10 n).reverse.map digitChar⟩

/-- Model of the JS `Number(string)` conversion, restricted to the class of
plain nonnegative decimal-digit strings (the only strings the claims feed it);
`none` stands for "not such a string" (NaN in JS for non-numeric text). -/
def jsNumberDec (s : String) : Option Nat :=
  if s.data ≠ [] ∧ s.data.all (·.isDigit) then
    some (Nat.ofDigits 10 ((s.data.map charDigit).reverse))
  else none

/-- Values a caller can place in the `fileIds` array of `download`:
a TeraBoxDirent instance, a JS number (here: a nonnegative integer id),
a string, or anything else. -/
inductive FileIdArg where
  | dirent (d : TBDirent)
  | num (n : Nat)
  | str (s : String)
  | other
deriving Repr, DecidableEq

/-- Per-element normalization in `download`: a dirent yields its `id`, a
number or string goes through `Number(...)` (`none` models NaN), anything
else throws the argument error. -/
def normalizeFileId : FileIdArg → Except String (Option Nat)
  | .dirent d => .ok (some d.id)
  | .num n => .ok (some n)
  | .str s => .ok (jsNumberDec s)
  | .other => .error "TypeError [ERR_INVALID_ARG_TYPE]: The fileIds argument must be an array of TeraBoxDirent instances or strings/numbers."

/-- The `fileIds.map(...)` pass: a throwing callback aborts the whole map. -/
def normalizeFileIds : List FileIdArg → Except String (List (Option Nat))
  | [] => .ok []
  | a :: rest =>
    match normalizeFileId a with
    | .error e => .error e
    | .ok v =>
      match normalizeFileIds rest with
      | .error e => .error e
      | .ok vs => .ok (v :: vs)

structure DlinkItem where
  fs_id : Nat
  dlink : String
deriving Repr, DecidableEq

structure DownloadResp where
  errno : Int
  errmsg : Option String
  dlink : Option (List DlinkItem)
deriving Repr

/-- Control flow of `download`: normalize the ids (throwing before any fetch
on a bad element — the Bool records whether the fetch was reached), then
handle the response: non-zero envelope throws, a missing or empty `dlink`
list throws, otherwise the `{id, link}` pairs are returned in response
order. -/
def downloadRun (args : List FileIdArg) (resp : DownloadResp) :
    Bool × Except String (List (Nat × String)) :=
  match normalizeFileIds args with
  | .error e => (false, .error e)
  | .ok _ =>
    (true,
      if resp.errno = 0 then
        match resp.dlink with
        | none => .error "[ERR_API] Unable to fetch download link"
        | some items =>
          if items.length < 1 then .error "[ERR_API] Unable to fetch download link"
          else .ok (items.map fun i => (i.fs_id, i.dlink))
      else .error (apiErr resp.errno resp.errmsg))

/-! ### sign encoder (src/lib/index.js lines 295-327) -/

def b64Alphabet : String :=
  "ABCDEFGHIJKLMNOPQRSTUVWXYZabcdefghijklmnopqrstuvwxyz0123456789+/"

/-- JS `s.charAt(i)`: the one-character string at index `i`, or `""` out of
range. -/
def charAt (s : String) (i : Nat) : String :=
  match s.data.get? i with
  | some c => String.singleton c
  | none => ""

/-- Signature-encoding routine inside `#sign`, translated from the while
loop: per iteration it reads up to three char codes `a` (masked with 255),
`r`, `o`, and appends four alphabet characters, with the `i === n` breaks
emitting `==` after one leftover code and `=` after two. -/
def signEncode : List Nat → String
  | [] => ""
  | [c0] =>
    let a := 255 &&& c0
    charAt b64Alphabet (a >>> 2) ++ charAt b64Alphabet ((3 &&& a) <<< 4) ++ "=="
  | [c0, c1] =>
    let a := 255 &&& c0
    let r := c1
    charAt b64Alphabet (a >>> 2) ++
      charAt b64Alphabet (((3 &&& a) <<< 4) ||| ((240 &&& r) >>> 4)) ++
      charAt b64Alphabet ((15 &&& r) <<< 2) ++ "="
  | c0 :: c1 :: c2 :: rest =>
    let a := 255 &&& c0
    let r := c1
    let o := c2
    charAt b64Alphabet (a >>> 2) ++
      charAt b64Alphabet (((3 &&& a) <<< 4) ||| ((240 &&& r) >>> 4)) ++
      charAt b64Alphabet (((15 &&& r) <<< 2) ||| ((192 &&& o) >>> 6)) ++
      charAt b64Alphabet (63 &&& o) ++ signEncode rest

/-- Standard base64 over `b64Alphabet`, written the way the spec describes
it: each group of three bytes forms a 24-bit number split into four 6-bit
digits; a final group of one byte yields two digits plus `==`, of two bytes
three digits plus `=`. -/
def base64Spec : List Nat → String
  | [] => ""
  | [b0] =>
    let n := b0 * 65536
    charAt b64Alphabet (n / 262144 % 64) ++ charAt b64Alphabet (n / 4096 % 64) ++ "=="
  | [b0, b1] =>
    let n := b0 * 65536 + b1 * 256
    charAt b64Alphabet (n / 262144 % 64) ++ charAt b64Alphabet (n / 4096 % 64) ++
      charAt b64Alphabet (n / 64 % 64) ++ "="
  | b0 :: b1 :: b2 :: rest =>
    let n := b0 * 65536 + b1 * 256 + b2
    charAt b64Alphabet (n / 262144 % 64) ++ charAt b64Alphabet (n / 4096 % 64) ++
      charAt b64Alphabet (n / 64 % 64) ++ charAt b64Alphabet (n % 64) ++ base64Spec rest

/-! ### Sample inputs used by witnesses and counterexamples -/

def streamBadEnvelope : String := "\x7b\"errno\":2,\"errmsg\":\"boom\"\x7d"

def emptyNdusInput : CredInput :=
  { ndus := .str "", lang := none, appId := none, browserId := none, host := none,
    blockId := none, userAgent := none, jsToken := none }

def plainNdusInput : CredInput :=
  { ndus := .str "tok", lang := none, appId := none, browserId := none, host := none,
    blockId := none, userAgent := none, jsToken := none }

def sampleDirentData : DirentData :=
  { fs_id := 77, size := none, server_filename := "a.txt", path := "/docs/a.txt",
    server_atime := some 5, atime := none, server_ctime := some 6, ctime := none,
    server_mtime := some 7, mtime := none, isdir := some 0 }

def sampleDirentDataZeroSize : DirentData :=
  { fs_id := 78, size := some 0, server_filename := "b.txt", path := "/docs/b.txt",
    server_atime := some 5, atime := none, server_ctime := some 6, ctime := none,
    server_mtime := some 7, mtime := none, isdir := some 1 }

def failedPrecreateEnv : UploadEnv :=
  { precreateResp := { errno := 2, errmsg := some "bad path", uploadid := "" }
    superfileResp := { md5 := some "abc" }
    createResp := { errno := 0, errmsg := none, data := sampleDirentData } }

def numNdusInput : CredInput :=
  { ndus := .num 5, lang := none, appId := none, browserId := none, host := none,
    blockId := none, userAgent := none, jsToken := none }

def witnessCred : CredInput :=
  { ndus := .str "t", lang := some "ko", appId := none, browserId := some "b1", host := none,
    blockId := none, userAgent := none, jsToken := none }

end TeraBoxJs

namespace TeraBoxJs

/-- C1: in `stream`, a text response that parses as a JSON envelope with a
non-zero code does NOT make the operation fail: the `try` body does throw
the `[ERR_API] 2 boom` error, but `catch { return data }` swallows it and
the raw text is returned, contradicting the claim (and the JSDoc `@throws`
on the method). -/
theorem stream_swallows_nonzero_envelope :
    streamTryBody streamBadEnvelope (ParseResult.ok 2 (some "boom")) =
      Except.error (apiErr 2 (some "boom")) ∧
    streamHandle streamBadEnvelope (ParseResult.ok 2 (some "boom")) =
      Except.ok streamBadEnvelope := by
  constructor <;> rfl

/-- C3: the per-entry record `move` sends encodes the parent-directory field
as `""` exactly when the destination's parent is the root `"/"`, as the
destination's parent directory otherwise, and the new-name field is always
the destination's basename. -/
theorem move_encodes_root_parent_empty (src tgt : String) :
    ((posixDirname tgt = "/" → (moveEntry src tgt).dest = "") ∧
     (posixDirname tgt ≠ "/" → (moveEntry src tgt).dest = posixDirname tgt)) ∧
    (moveEntry src tgt).newname = posixBasename tgt ∧
    (moveEntry src tgt).path = src := by
  refine ⟨⟨fun h => ?_, fun h => ?_⟩, rfl, rfl⟩ <;> simp [moveEntry, h]

theorem move_encodes_root_parent_empty_witness :
    (moveEntry "/a.txt" "/file1.txt").dest = "" ∧
    (moveEntry "/a.txt" "/sub/f.txt").dest = "/sub" :=
  ⟨(move_encodes_root_parent_empty "/a.txt" "/file1.txt").1.1 (by decide),
   (move_encodes_root_parent_empty "/a.txt" "/sub/f.txt").1.2 (by decide)⟩

/-- C5: upload reaches transfer only after precreate returned code zero,
reaches finalize only after precreate returned zero and transfer returned a
checksum, aborts directly after a failed precreate, and the invoked steps
are always a prefix of precreate-transfer-finalize in that order. -/
theorem upload_steps_strictly_sequenced (env : UploadEnv) :
    (UploadStep.transfer ∈ (uploadRun env).1 → env.precreateResp.errno = 0) ∧
    (UploadStep.finalize ∈ (uploadRun env).1 →
      env.precreateResp.errno = 0 ∧ strTruthy env.superfileResp.md5 = true) ∧
    (env.precreateResp.errno ≠ 0 →
      (uploadRun env).1 = [UploadStep.precreate] ∧
      ∃ e, (uploadRun env).2 = Except.error e) ∧
    ((uploadRun env).1 = [UploadStep.precreate] ∨
     (uploadRun env).1 = [UploadStep.precreate, UploadStep.transfer] ∨
     (uploadRun env).1 = [UploadStep.precreate, UploadStep.transfer, UploadStep.finalize]) := by
  unfold uploadRun
  split_ifs with h1 h2 h3 <;> simp_all

theorem upload_steps_strictly_sequenced_witness :
    (uploadRun failedPrecreateEnv).1 = [UploadStep.precreate] ∧
    ∃ e, (uploadRun failedPrecreateEnv).2 = Except.error e :=
  (upload_steps_strictly_sequenced failedPrecreateEnv).2.2.1 (by decide)

/-- C6: a quota response with envelope code zero and `used = U`, `total = T`
yields exactly `{used := U, total := T, free := T - U}`, so the result
satisfies `free = total - used`. -/
theorem quota_free_is_total_minus_used (r : QuotaResp) (h : r.errno = 0) :
    quotaHandle r = Except.ok { used := r.used, total := r.total, free := r.total - r.used } ∧
    ∀ q, quotaHandle r = Except.ok q → q.free = q.total - q.used := by
  refine ⟨by simp [quotaHandle, h], ?_⟩
  intro q hq
  simp only [quotaHandle, if_pos h, Except.ok.injEq] at hq
  simp [← hq]

theorem quota_free_is_total_minus_used_witness :
    quotaHandle { errno := 0, errmsg := none, used := 30, total := 100 } =
      Except.ok { used := 30, total := 100, free := 70 } :=
  (quota_free_is_total_minus_used { errno := 0, errmsg := none, used := 30, total := 100 } rfl).1

/-- C7 counterexample: the claim says construction succeeds for every string
session token and applies defaults to every other field, but `!credentials.ndus`
rejects the empty string token, and `browserId` receives no default (it is
stored as given, here absent). -/
theorem constructor_rejects_empty_string_token :
    (∃ e, teraBoxConstructor (some emptyNdusInput) = Except.error e) ∧
    (∃ r, teraBoxConstructor (some plainNdusInput) = Except.ok r ∧ r.browserId = none) :=
  ⟨⟨_, rfl⟩, ⟨_, rfl, rfl⟩⟩

/-- C7 amended: a missing credentials object, a missing/empty-string/non-string
session token each raise the configuration error (the constructor performs no
network activity); a non-empty string token yields a bundle keeping the token,
passing `browserId` through unchanged, and defaulting each omitted optional
field. -/
theorem constructor_validation_amended :
    (∃ e, teraBoxConstructor none = Except.error e) ∧
    (∀ ci : CredInput, ci.ndus.truthy = false →
      ∃ e, teraBoxConstructor (some ci) = Except.error e) ∧
    (∀ ci : CredInput, (∀ s, ci.ndus ≠ JsVal.str s) →
      ∃ e, teraBoxConstructor (some ci) = Except.error e) ∧
    (∀ ci : CredInput, ∀ s, ci.ndus = JsVal.str s → s ≠ "" →
      ∃ r, teraBoxConstructor (some ci) = Except.ok r ∧ r.ndus = s ∧
        r.browserId = ci.browserId ∧
        (ci.lang = none → r.lang = "en") ∧
        (ci.appId = none → r.appId = "250528") ∧
        (ci.host = none → r.host = "https://terabox.com") ∧
        (ci.blockId = none → r.blockId = defaultBlockId) ∧
        (ci.userAgent = none → r.userAgent = defaultUserAgent) ∧
        (ci.jsToken = none → r.jsToken = defaultJsToken)) := by
  refine ⟨⟨_, rfl⟩, ?_, ?_, ?_⟩
  · intro ci h
    simp only [teraBoxConstructor, h]
    exact ⟨_, rfl⟩
  · intro ci h
    simp only [teraBoxConstructor]
    cases hnd : ci.ndus with
    | str s => exact absurd hnd (h s)
    | num n => cases hn : (JsVal.num n).truthy <;> exact ⟨_, rfl⟩
    | boolean b => cases hn : (JsVal.boolean b).truthy <;> exact ⟨_, rfl⟩
    | undef => exact ⟨_, rfl⟩
    | nullv => exact ⟨_, rfl⟩
  · intro ci s hnd hs
    have hse : s.isEmpty = false := by
      cases h2 : s.isEmpty with
      | false => rfl
      | true => exact absurd ((String.isEmpty_iff s).mp h2) hs
    have heq : teraBoxConstructor (some ci) = Except.ok
        { ndus := s, lang := jsOrStr ci.lang "en", appId := jsOrStr ci.appId "250528",
          browserId := ci.browserId, host := jsOrStr ci.host "https://terabox.com",
          blockId := jsOrStr ci.blockId defaultBlockId,
          cookies := "browserid=" ++ jsInterp ci.browserId ++ "; lang=" ++
            jsInterp ci.lang ++ "; ndus=" ++ s,
          userAgent := jsOrStr ci.userAgent defaultUserAgent,
          jsToken := jsOrStr ci.jsToken defaultJsToken } := by
      simp only [teraBoxConstructor]
      rw [hnd]
      simp [JsVal.truthy, hse]
    exact ⟨_, heq, rfl, rfl,
      fun h => by simp [jsOrStr, h], fun h => by simp [jsOrStr, h],
      fun h => by simp [jsOrStr, h], fun h => by simp [jsOrStr, h],
      fun h => by simp [jsOrStr, h], fun h => by simp [jsOrStr, h]⟩

theorem constructor_validation_amended_witness :
    (∃ e, teraBoxConstructor (some numNdusInput) = Except.error e) ∧
    (∃ r, teraBoxConstructor (some witnessCred) = Except.ok r ∧ r.ndus = "t" ∧
      r.browserId = witnessCred.browserId ∧
      (witnessCred.lang = none → r.lang = "en") ∧
      (witnessCred.appId = none → r.appId = "250528") ∧
      (witnessCred.host = none → r.host = "https://terabox.com") ∧
      (witnessCred.blockId = none → r.blockId = defaultBlockId) ∧
      (witnessCred.userAgent = none → r.userAgent = defaultUserAgent) ∧
      (witnessCred.jsToken = none → r.jsToken = defaultJsToken)) :=
  ⟨constructor_validation_amended.2.2.1 numNdusInput (fun s h => by simp [numNdusInput] at h),
   constructor_validation_amended.2.2.2 witnessCred "t" rfl (by decide)⟩

/-- C8: for every Directory Entry, `isFile` is the boolean negation of
`isDirectory`, both reading the single flag stored at construction, so
exactly one of the two returns true. -/
theorem dirent_isFile_excludes_isDirectory (d : DirentData) :
    (mkDirent d).isFile = !(mkDirent d).isDirectory ∧
    ((mkDirent d).isFile = true ↔ ¬ ((mkDirent d).isDirectory = true)) := by
  constructor
  · rfl
  · simp [TBDirent.isFile, TBDirent.isDirectory]

theorem dirent_isFile_excludes_isDirectory_witness :
    (mkDirent sampleDirentData).isFile = !(mkDirent sampleDirentData).isDirectory :=
  (dirent_isFile_excludes_isDirectory sampleDirentData).1

/-- C9: the stored birth-time milliseconds always equal the stored
change-time milliseconds (both computed as
`(data.server_ctime || data.ctime) * 1000`), hence the `birthtime` and
`ctime` accessors denote the same instant. -/
theorem dirent_birthtime_eq_ctime (d : DirentData) :
    (mkDirent d).birthtimeMs = (mkDirent d).ctimeMs ∧
    (mkDirent d).birthtimeDate = (mkDirent d).ctimeDate := by
  exact ⟨rfl, rfl⟩

theorem dirent_birthtime_eq_ctime_witness :
    (mkDirent sampleDirentData).birthtimeMs = (mkDirent sampleDirentData).ctimeMs :=
  (dirent_birthtime_eq_ctime sampleDirentData).1

/-- C10: a Directory Entry built from a record whose size field is absent or
zero gets size 0 (never undefined), while name, path and id carry the
upstream values unchanged. -/
theorem dirent_size_defaults_to_zero (d : DirentData) :
    (d.size = none → (mkDirent d).size = 0) ∧
    (d.size = some 0 → (mkDirent d).size = 0) ∧
    (mkDirent d).name = d.server_filename ∧
    (mkDirent d).path = d.path ∧
    (mkDirent d).id = d.fs_id := by
  refine ⟨fun h => ?_, fun h => ?_, rfl, rfl, rfl⟩ <;> simp [mkDirent, h]

theorem dirent_size_defaults_to_zero_witness :
    (mkDirent sampleDirentData).size = 0 ∧ (mkDirent sampleDirentDataZeroSize).size = 0 :=
  ⟨(dirent_size_defaults_to_zero sampleDirentData).1 rfl,
   (dirent_size_defaults_to_zero sampleDirentDataZeroSize).2.1 rfl⟩

theorem digitChar_isDigit : ∀ d : Fin 10, (digitChar d.val).isDigit = true := by decide

theorem charDigit_digitChar : ∀ d : Fin 10, charDigit (digitChar d.val) = d.val := by decide

/-- Round trip: the JS Number() conversion recovers the integer from its
decimal rendering. -/
theorem jsNumberDec_renderNat (n : Nat) : jsNumberDec (renderNat n) = some n := by
  by_cases h0 : n = 0
  · subst h0; rfl
  · have hdig : ∀ d ∈ Nat.digits 10 n, d < 10 := fun d hd => Nat.digits_lt_base (by norm_num) hd
    unfold renderNat jsNumberDec
    rw [if_neg h0]
    have hne : (Nat.digits 10 n).reverse.map digitChar ≠ [] := by
      simp [Nat.digits_ne_nil_iff_ne_zero.mpr h0]
    have hall : ((Nat.digits 10 n).reverse.map digitChar).all (·.isDigit) = true := by
      rw [List.all_eq_true]
      intro c hc
      rw [List.mem_map] at hc
      obtain ⟨d, hd, rfl⟩ := hc
      rw [List.mem_reverse] at hd
      exact digitChar_isDigit ⟨d, hdig d hd⟩
    rw [if_pos ⟨hne, hall⟩]
    have hmap : ((Nat.digits 10 n).reverse.map digitChar).map charDigit
        = (Nat.digits 10 n).reverse := by
      rw [List.map_map]
      have hpt : ∀ d ∈ (Nat.digits 10 n).reverse, (charDigit ∘ digitChar) d = id d := by
        intro d hd
        rw [List.mem_reverse] at hd
        exact charDigit_digitChar ⟨d, hdig d hd⟩
      rw [List.map_congr_left hpt, List.map_id]
    rw [hmap, List.reverse_reverse, Nat.ofDigits_digits]

/-- C4: download normalizes a Directory Entry with id n, the number n, and
the decimal string rendering of n all to the same integer id n, while any
element that is none of the three aborts with the argument error before the
fetch is reached. -/
theorem download_normalizes_ids :
    (∀ d : TBDirent, normalizeFileId (FileIdArg.dirent d) = Except.ok (some d.id)) ∧
    (∀ n : Nat, normalizeFileId (FileIdArg.num n) = Except.ok (some n)) ∧
    (∀ n : Nat, normalizeFileId (FileIdArg.str (renderNat n)) = Except.ok (some n)) ∧
    (∀ args : List FileIdArg, ∀ resp : DownloadResp, FileIdArg.other ∈ args →
      (downloadRun args resp).1 = false ∧ ∃ e, (downloadRun args resp).2 = Except.error e) := by
  refine ⟨fun d => rfl, fun n => rfl,
    fun n => by simp [normalizeFileId, jsNumberDec_renderNat], ?_⟩
  intro args resp hmem
  have herr : ∃ e, normalizeFileIds args = Except.error e := by
    induction args with
    | nil => cases hmem
    | cons a rest ih =>
      cases hmem with
      | head => exact ⟨_, rfl⟩
      | tail _ hm =>
        obtain ⟨e, he⟩ := ih hm
        cases ha : normalizeFileId a with
        | error e2 => exact ⟨e2, by simp [normalizeFileIds, ha]⟩
        | ok v => exact ⟨e, by simp [normalizeFileIds, ha, he]⟩
  obtain ⟨e, he⟩ := herr
  exact ⟨by simp [downloadRun, he], ⟨e, by simp [downloadRun, he]⟩⟩

theorem download_normalizes_ids_witness :
    normalizeFileId (FileIdArg.str (renderNat 1234)) = Except.ok (some 1234) ∧
    ((downloadRun [FileIdArg.other] { errno := 0, errmsg := none, dlink := none }).1 = false ∧
      ∃ e, (downloadRun [FileIdArg.other] { errno := 0, errmsg := none, dlink := none }).2 =
        Except.error e) :=
  ⟨download_normalizes_ids.2.2.1 1234,
   download_normalizes_ids.2.2.2 [FileIdArg.other]
     { errno := 0, errmsg := none, dlink := none } (by simp)⟩


theorem bit_and255 : ∀ x : Fin 256, 255 &&& x.val = x.val := by decide

theorem bit_shr2 : ∀ x : Fin 256, x.val >>> 2 = x.val / 4 := by decide

theorem bit_and3 : ∀ x : Fin 256, 3 &&& x.val = x.val % 4 := by decide

theorem bit_and240shr4 : ∀ x : Fin 256, (240 &&& x.val) >>> 4 = x.val / 16 := by decide

theorem bit_and15 : ∀ x : Fin 256, 15 &&& x.val = x.val % 16 := by decide

theorem bit_and192shr6 : ∀ x : Fin 256, (192 &&& x.val) >>> 6 = x.val / 64 := by decide

theorem bit_and63 : ∀ x : Fin 256, 63 &&& x.val = x.val % 64 := by decide

theorem bit_shl4_or : ∀ x : Fin 4, ∀ y : Fin 16, (x.val <<< 4) ||| y.val = 16 * x.val + y.val := by
  decide

theorem bit_shl2_or : ∀ x : Fin 16, ∀ y : Fin 4, (x.val <<< 2) ||| y.val = 4 * x.val + y.val := by
  decide

theorem bit_shl4 : ∀ x : Fin 4, x.val <<< 4 = 16 * x.val := by decide

theorem bit_shl2 : ∀ x : Fin 16, x.val <<< 2 = 4 * x.val := by decide


theorem nat_and255 {x : Nat} (h : x < 256) : 255 &&& x = x := bit_and255 ⟨x, h⟩

theorem nat_shr2 {x : Nat} (h : x < 256) : x >>> 2 = x / 4 := bit_shr2 ⟨x, h⟩

theorem nat_and3 {x : Nat} (h : x < 256) : 3 &&& x = x % 4 := bit_and3 ⟨x, h⟩

theorem nat_and240shr4 {x : Nat} (h : x < 256) : (240 &&& x) >>> 4 = x / 16 :=
  bit_and240shr4 ⟨x, h⟩

theorem nat_and15 {x : Nat} (h : x < 256) : 15 &&& x = x % 16 := bit_and15 ⟨x, h⟩

theorem nat_and192shr6 {x : Nat} (h : x < 256) : (192 &&& x) >>> 6 = x / 64 :=
  bit_and192shr6 ⟨x, h⟩

theorem nat_and63 {x : Nat} (h : x < 256) : 63 &&& x = x % 64 := bit_and63 ⟨x, h⟩

theorem nat_shl4_or {x y : Nat} (hx : x < 4) (hy : y < 16) : (x <<< 4) ||| y = 16 * x + y :=
  bit_shl4_or ⟨x, hx⟩ ⟨y, hy⟩

theorem nat_shl2_or {x y : Nat} (hx : x < 16) (hy : y < 4) : (x <<< 2) ||| y = 4 * x + y :=
  bit_shl2_or ⟨x, hx⟩ ⟨y, hy⟩

theorem nat_shl4 {x : Nat} (h : x < 4) : x <<< 4 = 16 * x := bit_shl4 ⟨x, h⟩

theorem nat_shl2 {x : Nat} (h : x < 16) : x <<< 2 = 4 * x := bit_shl2 ⟨x, h⟩

/-- Encoder-vs-spec equality, by the same three-codes-at-a-time recursion the
while loop performs. -/
theorem signEncode_eq_base64 : ∀ l : List Nat, (∀ b ∈ l, b < 256) → signEncode l = base64Spec l
  | [], _ => rfl
  | [c0], h => by
    have h0 : c0 < 256 := h c0 (by simp)
    show charAt b64Alphabet ((255 &&& c0) >>> 2) ++
        charAt b64Alphabet ((3 &&& (255 &&& c0)) <<< 4) ++ "=="
      = charAt b64Alphabet (c0 * 65536 / 262144 % 64) ++
        charAt b64Alphabet (c0 * 65536 / 4096 % 64) ++ "=="
    rw [nat_and255 h0]
    have e1 : c0 >>> 2 = c0 * 65536 / 262144 % 64 := by rw [nat_shr2 h0]; omega
    have e2 : (3 &&& c0) <<< 4 = c0 * 65536 / 4096 % 64 := by
      rw [nat_and3 h0, nat_shl4 (by omega : c0 % 4 < 4)]; omega
    rw [e1, e2]
  | [c0, c1], h => by
    have h0 : c0 < 256 := h c0 (by simp)
    have h1 : c1 < 256 := h c1 (by simp)
    show charAt b64Alphabet ((255 &&& c0) >>> 2) ++
        charAt b64Alphabet (((3 &&& (255 &&& c0)) <<< 4) ||| ((240 &&& c1) >>> 4)) ++
        charAt b64Alphabet ((15 &&& c1) <<< 2) ++ "="
      = charAt b64Alphabet ((c0 * 65536 + c1 * 256) / 262144 % 64) ++
        charAt b64Alphabet ((c0 * 65536 + c1 * 256) / 4096 % 64) ++
        charAt b64Alphabet ((c0 * 65536 + c1 * 256) / 64 % 64) ++ "="
    rw [nat_and255 h0]
    have e1 : c0 >>> 2 = (c0 * 65536 + c1 * 256) / 262144 % 64 := by
      rw [nat_shr2 h0]; omega
    have e2 : ((3 &&& c0) <<< 4) ||| ((240 &&& c1) >>> 4)
        = (c0 * 65536 + c1 * 256) / 4096 % 64 := by
      rw [nat_and3 h0, nat_and240shr4 h1, nat_shl4_or (by omega) (by omega)]
      omega
    have e3 : (15 &&& c1) <<< 2 = (c0 * 65536 + c1 * 256) / 64 % 64 := by
      rw [nat_and15 h1, nat_shl2 (by omega : c1 % 16 < 16)]; omega
    rw [e1, e2, e3]
  | c0 :: c1 :: c2 :: rest, h => by
    have h0 : c0 < 256 := h c0 (by simp)
    have h1 : c1 < 256 := h c1 (by simp)
    have h2 : c2 < 256 := h c2 (by simp)
    have ih := signEncode_eq_base64 rest (fun b hb => h b (by simp [hb]))
    show charAt b64Alphabet ((255 &&& c0) >>> 2) ++
        charAt b64Alphabet (((3 &&& (255 &&& c0)) <<< 4) ||| ((240 &&& c1) >>> 4)) ++
        charAt b64Alphabet (((15 &&& c1) <<< 2) ||| ((192 &&& c2) >>> 6)) ++
        charAt b64Alphabet (63 &&& c2) ++ signEncode rest
      = charAt b64Alphabet ((c0 * 65536 + c1 * 256 + c2) / 262144 % 64) ++
        charAt b64Alphabet ((c0 * 65536 + c1 * 256 + c2) / 4096 % 64) ++
        charAt b64Alphabet ((c0 * 65536 + c1 * 256 + c2) / 64 % 64) ++
        charAt b64Alphabet ((c0 * 65536 + c1 * 256 + c2) % 64) ++ base64Spec rest
    rw [nat_and255 h0, ih]
    have e1 : c0 >>> 2 = (c0 * 65536 + c1 * 256 + c2) / 262144 % 64 := by
      rw [nat_shr2 h0]; omega
    have e2 : ((3 &&& c0) <<< 4) ||| ((240 &&& c1) >>> 4)
        = (c0 * 65536 + c1 * 256 + c2) / 4096 % 64 := by
      rw [nat_and3 h0, nat_and240shr4 h1, nat_shl4_or (by omega) (by omega)]
      omega
    have e3 : ((15 &&& c1) <<< 2) ||| ((192 &&& c2) >>> 6)
        = (c0 * 65536 + c1 * 256 + c2) / 64 % 64 := by
      rw [nat_and15 h1, nat_and192shr6 h2, nat_shl2_or (by omega) (by omega)]
      omega
    have e4 : 63 &&& c2 = (c0 * 65536 + c1 * 256 + c2) % 64 := by
      rw [nat_and63 h2]; omega
    rw [e1, e2, e3, e4]


/-- Every character `charAt` picks from the base64 alphabet differs from the
padding character. -/
theorem charAt_b64_ne_pad (i : Nat) : ∀ c ∈ (charAt b64Alphabet i).data, c ≠ '=' := by
  intro c hc
  unfold charAt at hc
  cases hg : b64Alphabet.data.get? i with
  | none => rw [hg] at hc; cases hc
  | some ch =>
    rw [hg] at hc
    have hch : ch ∈ b64Alphabet.data := List.get?_mem hg
    have hceq : c = ch := by simpa [String.singleton] using hc
    subst hceq
    have hall : ∀ x ∈ b64Alphabet.data, x ≠ '=' := by decide
    exact hall c hch

/-- Inputs of length divisible by three encode without any padding character. -/
theorem signEncode_no_pad : ∀ l : List Nat, l.length % 3 = 0 →
    ∀ c ∈ (signEncode l).data, c ≠ '='
  | [], _ => by intro c hc; cases hc
  | [c0], h => by simp at h
  | [c0, c1], h => by simp at h
  | c0 :: c1 :: c2 :: rest, h => by
    have hr : rest.length % 3 = 0 := by
      simp only [List.length_cons] at h; omega
    have ih := signEncode_no_pad rest hr
    intro c hc
    have he : signEncode (c0 :: c1 :: c2 :: rest) =
        charAt b64Alphabet ((255 &&& c0) >>> 2) ++
        charAt b64Alphabet (((3 &&& (255 &&& c0)) <<< 4) ||| ((240 &&& c1) >>> 4)) ++
        charAt b64Alphabet (((15 &&& c1) <<< 2) ||| ((192 &&& c2) >>> 6)) ++
        charAt b64Alphabet (63 &&& c2) ++ signEncode rest := rfl
    rw [he] at hc
    simp only [String.data_append, List.mem_append] at hc
    rcases hc with ((((hc | hc) | hc) | hc) | hc)
    · exact charAt_b64_ne_pad _ c hc
    · exact charAt_b64_ne_pad _ c hc
    · exact charAt_b64_ne_pad _ c hc
    · exact charAt_b64_ne_pad _ c hc
    · exact ih c hc

/-- Inputs with one leftover byte encode to a pad-free prefix followed by
`==`. -/
theorem signEncode_pad_two : ∀ l : List Nat, l.length % 3 = 1 →
    ∃ t, signEncode l = t ++ "==" ∧ ∀ c ∈ t.data, c ≠ '='
  | [], h => by simp at h
  | [c0], _ => by
    refine ⟨charAt b64Alphabet ((255 &&& c0) >>> 2) ++
      charAt b64Alphabet ((3 &&& (255 &&& c0)) <<< 4), rfl, ?_⟩
    intro c hc
    simp only [String.data_append, List.mem_append] at hc
    rcases hc with hc | hc
    · exact charAt_b64_ne_pad _ c hc
    · exact charAt_b64_ne_pad _ c hc
  | [c0, c1], h => by simp at h
  | c0 :: c1 :: c2 :: rest, h => by
    have hr : rest.length % 3 = 1 := by
      simp only [List.length_cons] at h; omega
    obtain ⟨t, ht, htc⟩ := signEncode_pad_two rest hr
    refine ⟨charAt b64Alphabet ((255 &&& c0) >>> 2) ++
        charAt b64Alphabet (((3 &&& (255 &&& c0)) <<< 4) ||| ((240 &&& c1) >>> 4)) ++
        charAt b64Alphabet (((15 &&& c1) <<< 2) ||| ((192 &&& c2) >>> 6)) ++
        charAt b64Alphabet (63 &&& c2) ++ t, ?_, ?_⟩
    · have he : signEncode (c0 :: c1 :: c2 :: rest) =
          charAt b64Alphabet ((255 &&& c0) >>> 2) ++
          charAt b64Alphabet (((3 &&& (255 &&& c0)) <<< 4) ||| ((240 &&& c1) >>> 4)) ++
          charAt b64Alphabet (((15 &&& c1) <<< 2) ||| ((192 &&& c2) >>> 6)) ++
          charAt b64Alphabet (63 &&& c2) ++ signEncode rest := rfl
      rw [he, ht, ← String.append_assoc]
    · intro c hc
      simp only [String.data_append, List.mem_append] at hc
      rcases hc with ((((hc | hc) | hc) | hc) | hc)
      · exact charAt_b64_ne_pad _ c hc
      · exact charAt_b64_ne_pad _ c hc
      · exact charAt_b64_ne_pad _ c hc
      · exact charAt_b64_ne_pad _ c hc
      · exact htc c hc

/-- Inputs with two leftover bytes encode to a pad-free prefix followed by a
single `=`. -/
theorem signEncode_pad_one : ∀ l : List Nat, l.length % 3 = 2 →
    ∃ t, signEncode l = t ++ "=" ∧ ∀ c ∈ t.data, c ≠ '='
  | [], h => by simp at h
  | [c0], h => by simp at h
  | [c0, c1], _ => by
    refine ⟨charAt b64Alphabet ((255 &&& c0) >>> 2) ++
      charAt b64Alphabet (((3 &&& (255 &&& c0)) <<< 4) ||| ((240 &&& c1) >>> 4)) ++
      charAt b64Alphabet ((15 &&& c1) <<< 2), rfl, ?_⟩
    intro c hc
    simp only [String.data_append, List.mem_append] at hc
    rcases hc with (hc | hc) | hc
    · exact charAt_b64_ne_pad _ c hc
    · exact charAt_b64_ne_pad _ c hc
    · exact charAt_b64_ne_pad _ c hc
  | c0 :: c1 :: c2 :: rest, h => by
    have hr : rest.length % 3 = 2 := by
      simp only [List.length_cons] at h; omega
    obtain ⟨t, ht, htc⟩ := signEncode_pad_one rest hr
    refine ⟨charAt b64Alphabet ((255 &&& c0) >>> 2) ++
        charAt b64Alphabet (((3 &&& (255 &&& c0)) <<< 4) ||| ((240 &&& c1) >>> 4)) ++
        charAt b64Alphabet (((15 &&& c1) <<< 2) ||| ((192 &&& c2) >>> 6)) ++
        charAt b64Alphabet (63 &&& c2) ++ t, ?_, ?_⟩
    · have he : signEncode (c0 :: c1 :: c2 :: rest) =
          charAt b64Alphabet ((255 &&& c0) >>> 2) ++
          charAt b64Alphabet (((3 &&& (255 &&& c0)) <<< 4) ||| ((240 &&& c1) >>> 4)) ++
          charAt b64Alphabet (((15 &&& c1) <<< 2) ||| ((192 &&& c2) >>> 6)) ++
          charAt b64Alphabet (63 &&& c2) ++ signEncode rest := rfl
      rw [he, ht, ← String.append_assoc]
    · intro c hc
      simp only [String.data_append, List.mem_append] at hc
      rcases hc with ((((hc | hc) | hc) | hc) | hc)
      · exact charAt_b64_ne_pad _ c hc
      · exact charAt_b64_ne_pad _ c hc
      · exact charAt_b64_ne_pad _ c hc
      · exact charAt_b64_ne_pad _ c hc
      · exact htc c hc

/-- C2: on byte-valued inputs the signature-encoding routine is standard
base64 over the alphabet A-Z a-z 0-9 + /: it equals the spec encoding,
3-aligned inputs contain no padding character, one leftover byte ends the
output in `==`, two leftover bytes end it in a single `=`, and the literal
samples encode as the reference says. -/
theorem sign_encoder_is_standard_base64 :
    (∀ l : List Nat, (∀ b ∈ l, b < 256) → signEncode l = base64Spec l) ∧
    (∀ l : List Nat, l.length % 3 = 0 → ∀ c ∈ (signEncode l).data, c ≠ '=') ∧
    (∀ l : List Nat, l.length % 3 = 1 → ∃ t, signEncode l = t ++ "==" ∧ ∀ c ∈ t.data, c ≠ '=') ∧
    (∀ l : List Nat, l.length % 3 = 2 → ∃ t, signEncode l = t ++ "=" ∧ ∀ c ∈ t.data, c ≠ '=') ∧
    signEncode [102, 111, 111] = "Zm9v" ∧
    signEncode [102, 111] = "Zm8=" :=
  ⟨signEncode_eq_base64, signEncode_no_pad, signEncode_pad_two, signEncode_pad_one,
    by decide, by decide⟩

theorem sign_encoder_is_standard_base64_witness :
    signEncode [104, 105] = base64Spec [104, 105] ∧
    (∃ t, signEncode [104] = t ++ "==" ∧ ∀ c ∈ t.data, c ≠ '=') :=
  ⟨sign_encoder_is_standard_base64.1 [104, 105] (by decide),
   sign_encoder_is_standard_base64.2.2.1 [104] (by decide)⟩

end TeraBoxJs
